import Mathlib

/-!
Verification development for the pydoll scraping service
(apps/pydoll-service/app.py of firecrawl-simple).

The service exposes one core operation, the async function
`scrape_with_pydoll`, which drives a headless browser through
navigate / wait / selector-check / extract / screenshot and returns a
result dict.  We embed it shallowly: every external (driver) call is
an entry of a `DriverBehavior` record giving the outcome of that call
(normal return or raised exception) together with the wall-clock
duration of the call in milliseconds, and the embedded function
replays the exact Python control flow of app.py over that record.
-/

namespace Pydoll

/-- A Python exception as observed by the except clauses of app.py:
`except PageLoadTimeout` is matched first (flag `isPageLoadTimeout`),
`except Exception as e` catches everything else and uses `str(e)`
(field `msg`, which Python allows to be the empty string). -/
structure PyExn where
  isPageLoadTimeout : Bool
  msg : String
deriving Repr, DecidableEq

/-- Outcome of one Python call: normal return of a value, or a raised
exception. -/
inductive Outcome (α : Type) where
  | ok : α → Outcome α
  | exn : PyExn → Outcome α
deriving Repr, DecidableEq

/-- True when the outcome is a normal return. -/
def Outcome.isOk {α : Type} : Outcome α → Bool
  | .ok _ => true
  | .exn _ => false

/-- One driver call as seen by the orchestration code: its outcome and
how many milliseconds of wall-clock time the awaited call consumed. -/
structure Step (α : Type) where
  result : Outcome α
  dur : Nat
deriving Repr, DecidableEq

/-- Behavior of the external collaborators (pydoll driver, filesystem)
for one request, one field per call site of `scrape_with_pydoll` in
program order:

* `createBrowser` — `create_browser()` at line 132, i.e. constructing
  `Chrome(options=options)`; this happens BEFORE the try block;
* `start` — `await browser.start()` (line 134);
* `newTab` — `await browser.new_tab()` (line 136);
* `setWindowBounds` — `await browser.set_window_bounds(...)`
  (lines 147-152), wrapped in its own try/except so its outcome is
  never fatal, but its duration is still spent;
* `goTo` — `await tab.go_to(str(url))` (line 157);
* `findElement` — `await tab.find_element(By.CSS_SELECTOR,
  check_selector, timeout=10)` (line 176), performed only when
  `check_selector` is set;
* `pageSource` — `await tab.page_source` (line 182); on success it
  yields the document text;
* `takeScreenshot1` — the whole first screenshot block
  (lines 187-204): tempfile creation, `tab.take_screenshot`, file
  read, base64 encode, unlink; on success it yields the base64 data;
* `stop` — `await browser.stop()` in the finally block (line 275). -/
structure DriverBehavior where
  createBrowser : Step Unit
  start : Step Unit
  newTab : Step Unit
  setWindowBounds : Step Unit
  goTo : Step Unit
  findElement : Step Unit
  pageSource : Step String
  takeScreenshot1 : Step String
  stop : Step Unit
deriving Repr, DecidableEq

/-- Arguments of `scrape_with_pydoll` (lines 103-110), with the same
defaults as the Python signature.  `wait_after_load` and `timeout`
are in milliseconds.  `headers` is only logged by the code, never
interpreted, so we keep just its presence. -/
structure ScrapeArgs where
  url : String
  wait_after_load : Nat := 0
  timeout : Nat := 60000
  headers : Option (List (String × String)) := none
  check_selector : Option String := none
  screenshot : Bool := false
  full_page_screenshot : Bool := false
deriving Repr, DecidableEq

/-- The result dict built by `scrape_with_pydoll` (and the
`ScrapeResponse` model, lines 72-76): content string, optional status
code, optional error string, optional base64 screenshot. -/
structure ScrapeResult where
  content : String
  pageStatusCode : Option Int
  pageError : Option String
  screenshot : Option String
deriving Repr, DecidableEq

/-- What one run of `scrape_with_pydoll` produces: its outcome (a
returned dict, or an exception propagating out of the function), the
total wall-clock duration of the call in milliseconds, and how many
times `browser.stop()` was invoked on the browser instance. -/
structure RunOutput where
  result : Outcome ScrapeResult
  elapsedMs : Nat
  stopCalls : Nat
deriving Repr, DecidableEq

/-- The dict returned by the two except handlers (lines 254-271):
`except PageLoadTimeout` returns pageError = "Page load timeout",
`except Exception as e` returns pageError = str(e). -/
def failedResult (e : PyExn) : ScrapeResult :=
  { content := ""
    pageStatusCode := none
    pageError := some (if e.isPageLoadTimeout then "Page load timeout" else e.msg)
    screenshot := none }

/-- The second screenshot block (lines 211-242) evaluates
`PageCommands.capture_screenshot(page.connection, ...)` inside its
try; the name `page` is bound nowhere in the function or the module
(the tab variable is named `tab`), so Python raises NameError before
any driver call is made.  We model that attempt as this always-raised
exception. -/
def block2Attempt : Outcome String :=
  Outcome.exn { isPageLoadTimeout := false, msg := "NameError: name page is not defined" }

/-- Milliseconds slept after a successful navigation (lines 164-169):
`asyncio.sleep(wait_after_load / 1000)` when `wait_after_load > 0`,
else a hard-coded `asyncio.sleep(6)`. -/
def postLoadSleepMs (wait_after_load : Nat) : Nat :=
  if wait_after_load > 0 then wait_after_load else 6000

/-- The body of the try block of `scrape_with_pydoll` (lines 134-252),
replayed over a driver behavior: either the success dict of lines
247-252 or the first uncaught exception, paired with the milliseconds
spent inside the try block.  Transcribed statement by statement from
app.py; the `timeout` and `headers` arguments are genuinely unused
there (the code only logs `headers` and never reads `timeout`). -/
def tryBody (b : DriverBehavior) (a : ScrapeArgs) : Outcome ScrapeResult × Nat :=
  -- line 134: await browser.start()
  match b.start.result with
  | .exn e => (.exn e, b.start.dur)
  | .ok _ =>
  -- line 136: tab = await browser.new_tab()
  match b.newTab.result with
  | .exn e => (.exn e, b.start.dur + b.newTab.dur)
  | .ok _ =>
  -- lines 140-143: headers are only logged
  -- lines 146-154: set_window_bounds, wrapped in try/except (non-fatal)
  let t0 := b.start.dur + b.newTab.dur + b.setWindowBounds.dur
  -- line 157: await tab.go_to(str(url))
  match b.goTo.result with
  | .exn e => (.exn e, t0 + b.goTo.dur)
  | .ok _ =>
  -- line 162: page_status_code = 200
  let page_status_code : Option Int := some 200
  -- lines 164-169: post-load sleep
  let t1 := t0 + b.goTo.dur + postLoadSleepMs a.wait_after_load
  -- lines 171-179: selector wait, wrapped in try/except (non-fatal)
  let t2 := t1 + (match a.check_selector with
                  | some _ => b.findElement.dur
                  | none => 0)
  -- line 182: page_content = await tab.page_source
  match b.pageSource.result with
  | .exn e => (.exn e, t2 + b.pageSource.dur)
  | .ok page_content =>
  let t3 := t2 + b.pageSource.dur
  -- lines 184-209: first screenshot block
  let screenshot_data : Option String :=
    if a.screenshot || a.full_page_screenshot then
      match b.takeScreenshot1.result with
      | .ok d => some d
      | .exn _ => none
    else none
  let t4 := t3 + (if a.screenshot || a.full_page_screenshot then b.takeScreenshot1.dur else 0)
  -- line 212: screenshot_data = None  (the duplicated block resets it)
  let screenshot_data : Option String := none
  -- lines 213-242: second screenshot block; its try always raises
  -- NameError (see block2Attempt), caught at line 239, yielding None
  let screenshot_data : Option String :=
    if a.screenshot || a.full_page_screenshot then
      match block2Attempt with
      | .ok d => some d
      | .exn _ => none
    else screenshot_data
  -- lines 247-252: success dict
  (.ok { content := page_content
         pageStatusCode := page_status_code
         pageError := none
         screenshot := screenshot_data }, t4)

/-- The whole of `scrape_with_pydoll` (lines 103-277): line 132 calls
`create_browser()` OUTSIDE the try block, so an exception there
propagates out of the function and the finally block never runs;
otherwise the try body executes, its exceptions are converted to
failure dicts by the handlers of lines 254-271, and the finally block
(lines 272-277) calls `browser.stop()` exactly once, swallowing any
exception from it. -/
def scrape_with_pydoll (b : DriverBehavior) (a : ScrapeArgs) : RunOutput :=
  match b.createBrowser.result with
  | .exn e =>
    { result := .exn e, elapsedMs := b.createBrowser.dur, stopCalls := 0 }
  | .ok _ =>
    let body := tryBody b a
    let r : Outcome ScrapeResult :=
      match body.1 with
      | .ok res => .ok res
      | .exn e => .ok (failedResult e)
    { result := r
      elapsedMs := b.createBrowser.dur + body.2 + b.stop.dur
      stopCalls := 1 }

/-! ### Spec-side predicates

The following predicates transcribe result-shape invariants claimed by
the specification, to be compared against the behavior of the source
function above. -/

/-- The specification calls pageError empty when it is absent or the
empty string. -/
def pageErrorEmpty (r : ScrapeResult) : Prop :=
  r.pageError = none ∨ r.pageError = some ""

/-- Claimed invariant (spec section 3, ScrapeResult): exactly one of
(content non-empty AND pageError empty) or (content empty AND
pageError non-empty) holds.  The two disjuncts are mutually exclusive,
so exactly-one is the plain disjunction. -/
def claimedNavInvariant (r : ScrapeResult) : Prop :=
  (r.content ≠ "" ∧ pageErrorEmpty r) ∨ (r.content = "" ∧ ¬ pageErrorEmpty r)

structure PoolState where
  nextId : Nat
  live : List Nat
deriving Repr, DecidableEq

/-- One request entering `scrape_with_pydoll` constructs a fresh
browser (app.py line 132): a new instance id becomes live. -/
def acquireFresh (s : PoolState) : Nat × PoolState :=
  (s.nextId, { nextId := s.nextId + 1, live := s.live ++ [s.nextId] })

/-- State after `n` requests have each constructed their browser and
none has yet released it. -/
def acquireAll : Nat → PoolState → PoolState
  | 0, s => s
  | n + 1, s => acquireAll n (acquireFresh s).2

/-- No requests in flight, no instance ever constructed. -/
def initPool : PoolState := { nextId := 0, live := [] }

/-- Well-formedness of the allocation state: live instance ids are
pairwise distinct and below the counter. -/
def PoolInv (s : PoolState) : Prop :=
  s.live.Nodup ∧ ∀ x ∈ s.live, x < s.nextId

/-! ### Concrete behaviors and requests used as test vectors -/

/-- A driver call that returns normally, instantly. -/
def okU : Step Unit := { result := .ok (), dur := 0 }

/-- A behavior in which every driver call succeeds instantly, the
document text is `content` and the first screenshot block yields
base64 data `shot`. -/
def allOk (content shot : String) : DriverBehavior :=
  { createBrowser := okU
    start := okU
    newTab := okU
    setWindowBounds := okU
    goTo := okU
    findElement := okU
    pageSource := { result := .ok content, dur := 0 }
    takeScreenshot1 := { result := .ok shot, dur := 0 }
    stop := okU }

/-- A plain request with all defaults. -/
def reqPlain : ScrapeArgs := { url := "http://example.com" }

/-- A request with a screenshot and all other defaults. -/
def reqShot : ScrapeArgs := { url := "http://example.com", screenshot := true }

/-- Behavior for C2: navigation succeeds but takes 30000 ms (well
within the default internal timeout of the pydoll driver), everything
else is instant. -/
def slowNav : DriverBehavior :=
  { allOk "<html>slow</html>" "IMG" with goTo := { result := .ok (), dur := 30000 } }

/-- Request for C2: the caller asks for a 1000 ms deadline. -/
def reqT1000 : ScrapeArgs := { url := "http://example.com", timeout := 1000 }

/-- Behavior for C5: navigation takes 5000 ms, the selector never
appears so `find_element` spends its full 10-second sub-timeout
(10000 ms) and raises. -/
def bSel : DriverBehavior :=
  { allOk "<html>sel</html>" "IMG" with
    goTo := { result := .ok (), dur := 5000 }
    findElement := { result := .exn { isPageLoadTimeout := false, msg := "selector not found" }
                     dur := 10000 } }

/-- Request for C5: 1000 ms caller deadline and a selector to wait
for. -/
def reqSel : ScrapeArgs :=
  { url := "http://example.com", timeout := 1000, check_selector := some "#main" }

/-- The C5 request with the selector check removed, to isolate the
time the selector wait consumed. -/
def reqSelNone : ScrapeArgs := { reqSel with check_selector := none }

/-- Behavior for C6: everything succeeds but the rendered document is
the empty string. -/
def bEmptySrc : DriverBehavior := allOk "" "IMG"

/-- The result `scrape_with_pydoll` returns for `bEmptySrc`. -/
def emptyOkRes : ScrapeResult :=
  { content := "", pageStatusCode := some 200, pageError := none, screenshot := none }

/-- The launch failure used for C8. -/
def launchExn : PyExn := { isPageLoadTimeout := false, msg := "chrome binary not found" }

/-- Behavior for C8: constructing the Chrome instance raises. -/
def bLaunchFail : DriverBehavior :=
  { allOk "x" "IMG" with createBrowser := { result := .exn launchExn, dur := 0 } }

/-- Behavior for C4 witness: screenshot capture fails, everything else
succeeds. -/
def bShotFail : DriverBehavior :=
  { allOk "<html>ok</html>" "IMG" with
    takeScreenshot1 := { result := .exn { isPageLoadTimeout := false, msg := "no display" }
                         dur := 0 } }

/-! ## Helper lemmas shared across the development -/

/-- The try body either raises, or returns the success dict with
status 200, no pageError, and — because the duplicated second
screenshot block always resets the data and then raises NameError —
an absent screenshot. -/
theorem tryBody_shape (b : DriverBehavior) (a : ScrapeArgs) :
    (∃ e : PyExn, (tryBody b a).1 = .exn e) ∨
    (∃ c : String, (tryBody b a).1 =
      .ok { content := c, pageStatusCode := some 200, pageError := none, screenshot := none }) := by
  rcases hs : b.start.result with u | e
  case exn => exact Or.inl ⟨e, by simp [tryBody, hs]⟩
  rcases hn : b.newTab.result with u | e
  case exn => exact Or.inl ⟨e, by simp [tryBody, hs, hn]⟩
  rcases hg : b.goTo.result with u | e
  case exn => exact Or.inl ⟨e, by simp [tryBody, hs, hn, hg]⟩
  rcases hp : b.pageSource.result with c | e
  case exn => exact Or.inl ⟨e, by simp [tryBody, hs, hn, hg, hp]⟩
  exact Or.inr ⟨c, by simp [tryBody, hs, hn, hg, hp, block2Attempt]⟩

/-- Every run of `scrape_with_pydoll` ends in one of three ways: the
browser construction exception propagates, a failure dict is returned
by an except handler, or the success dict is returned. -/
theorem scrape_result_shape (b : DriverBehavior) (a : ScrapeArgs) :
    (∃ e : PyExn, (scrape_with_pydoll b a).result = .exn e) ∨
    (∃ e : PyExn, (scrape_with_pydoll b a).result = .ok (failedResult e)) ∨
    (∃ c : String, (scrape_with_pydoll b a).result =
      .ok { content := c, pageStatusCode := some 200, pageError := none, screenshot := none }) := by
  rcases hcb : b.createBrowser.result with u | e
  · rcases tryBody_shape b a with ⟨e, he⟩ | ⟨c, hc⟩
    · exact Or.inr (Or.inl ⟨e, by simp [scrape_with_pydoll, hcb, he]⟩)
    · exact Or.inr (Or.inr ⟨c, by simp [scrape_with_pydoll, hcb, hc]⟩)
  · exact Or.inl ⟨e, by simp [scrape_with_pydoll, hcb]⟩

/-- When construction, start, new_tab, go_to and page_source all
succeed, the run returns the success dict — independently of the
selector wait and screenshot outcomes. -/
theorem scrape_success_result (b : DriverBehavior) (a : ScrapeArgs) (c : String)
    (hcb : b.createBrowser.result = .ok ())
    (hs : b.start.result = .ok ())
    (hn : b.newTab.result = .ok ())
    (hg : b.goTo.result = .ok ())
    (hp : b.pageSource.result = .ok c) :
    (scrape_with_pydoll b a).result =
      .ok { content := c, pageStatusCode := some 200, pageError := none, screenshot := none } := by
  simp [scrape_with_pydoll, tryBody, hcb, hs, hn, hg, hp, block2Attempt]

/-- Total wall-clock duration of a fully successful run, as the sum of
the durations of the individual awaited calls, the post-load sleep and
the optional screenshot block. -/
theorem scrape_elapsed_success (b : DriverBehavior) (a : ScrapeArgs) (c : String)
    (hcb : b.createBrowser.result = .ok ())
    (hs : b.start.result = .ok ())
    (hn : b.newTab.result = .ok ())
    (hg : b.goTo.result = .ok ())
    (hp : b.pageSource.result = .ok c) :
    (scrape_with_pydoll b a).elapsedMs =
      b.createBrowser.dur + (b.start.dur + b.newTab.dur + b.setWindowBounds.dur
        + b.goTo.dur + postLoadSleepMs a.wait_after_load
        + (match a.check_selector with | some _ => b.findElement.dur | none => 0)
        + b.pageSource.dur
        + (if a.screenshot || a.full_page_screenshot then b.takeScreenshot1.dur else 0))
      + b.stop.dur := by
  simp [scrape_with_pydoll, tryBody, hcb, hs, hn, hg, hp]

/-- Each acquisition step appends exactly one live instance. -/
theorem acquireAll_live_length (n : Nat) :
    ∀ s : PoolState, ((acquireAll n s).live).length = s.live.length + n := by
  induction n with
  | zero => intro s; simp [acquireAll]
  | succ n ih =>
    intro s
    rw [acquireAll, ih]
    simp [acquireFresh]
    omega

/-- Freshness of the counter keeps live instance ids pairwise
distinct. -/
theorem poolInv_acquireAll (n : Nat) :
    ∀ s : PoolState, PoolInv s → PoolInv (acquireAll n s) := by
  induction n with
  | zero => intro s h; simpa [acquireAll] using h
  | succ n ih =>
    intro s h
    rw [acquireAll]
    apply ih
    simp only [acquireFresh, PoolInv]
    constructor
    · rw [List.nodup_append]
      refine ⟨h.1, List.nodup_singleton _, ?_⟩
      intro x hx
      simp only [List.mem_singleton]
      intro hxe
      exact absurd (h.2 x hx) (by omega)
    · intro x hx
      rcases List.mem_append.mp hx with hxl | hxr
      · exact Nat.lt_succ_of_lt (h.2 x hxl)
      · simp only [List.mem_singleton] at hxr
        omega

/-! ## Claim C1 -/

/-- C1: for every request with screenshot=true or
full_page_screenshot=true in which navigation and content extraction
succeed, the screenshot field of the returned result is none: the
second duplicated screenshot-capture block first resets
screenshot_data to None and then always fails on the undefined name
page, so an image successfully captured by the first block (here the
base64 data d) is never returned. -/
theorem C1_screenshot_never_returned (b : DriverBehavior) (a : ScrapeArgs)
    (c d : String) (res : ScrapeResult)
    (hreq : a.screenshot = true ∨ a.full_page_screenshot = true)
    (hshot : b.takeScreenshot1.result = .ok d)
    (hcb : b.createBrowser.result = .ok ())
    (hs : b.start.result = .ok ())
    (hn : b.newTab.result = .ok ())
    (hg : b.goTo.result = .ok ())
    (hp : b.pageSource.result = .ok c)
    (hres : (scrape_with_pydoll b a).result = .ok res) :
    res.screenshot = none := by
  rw [scrape_success_result b a c hcb hs hn hg hp] at hres
  injection hres with h
  rw [← h]

/-- C1 witness: concrete run with screenshot requested, every driver
call succeeding and the first block capturing IMGDATA; the returned
screenshot is still absent. -/
theorem C1_screenshot_never_returned_witness :
    reqShot.screenshot = true ∧
    (allOk "<html>a</html>" "IMGDATA").takeScreenshot1.result = .ok "IMGDATA" ∧
    (scrape_with_pydoll (allOk "<html>a</html>" "IMGDATA") reqShot).result =
      .ok { content := "<html>a</html>", pageStatusCode := some 200
            pageError := none, screenshot := none } ∧
    ({ content := "<html>a</html>", pageStatusCode := some 200
       pageError := none, screenshot := none } : ScrapeResult).screenshot = none :=
  ⟨rfl, rfl, rfl,
    C1_screenshot_never_returned (allOk "<html>a</html>" "IMGDATA") reqShot
      "<html>a</html>" "IMGDATA" _ (Or.inl rfl) rfl rfl rfl rfl rfl rfl rfl⟩

/-! ## Claim C2 -/

/-- C2: the caller-supplied timeout is never read by
scrape_with_pydoll, so it bounds nothing.  First conjunct: the whole
run (returned result, elapsed time, stop calls) is independent of the
timeout argument.  Remaining conjuncts evaluate the failing input: a
request with timeout 1000 ms whose navigation takes 30000 ms completes
successfully after 36000 ms with full content and no pageError,
instead of returning empty content with a pageError within roughly
1000 ms as the claim requires. -/
theorem C2_timeout_never_bounds_run :
    (∀ (b : DriverBehavior) (a : ScrapeArgs) (t₁ t₂ : Nat),
      scrape_with_pydoll b { a with timeout := t₁ } =
        scrape_with_pydoll b { a with timeout := t₂ }) ∧
    reqT1000.timeout = 1000 ∧
    (scrape_with_pydoll slowNav reqT1000).elapsedMs = 36000 ∧
    (scrape_with_pydoll slowNav reqT1000).result =
      .ok { content := "<html>slow</html>", pageStatusCode := some 200
            pageError := none, screenshot := none } := by
  refine ⟨?_, rfl, rfl, rfl⟩
  intro b a t₁ t₂
  rfl

/-! ## Claim C3 -/

/-- C3 counterexample: with wait_after_load = 0 and every driver call
instantaneous, the run still takes 6000 ms, because line 169 of app.py
sleeps a hard-coded 6 seconds in the else branch; the claim says the
orchestrator proceeds immediately with no additional delay. -/
theorem C3_counterexample :
    reqPlain.wait_after_load = 0 ∧
    (scrape_with_pydoll (allOk "<html>a</html>" "IMG") reqPlain).elapsedMs = 6000 ∧
    (scrape_with_pydoll (allOk "<html>a</html>" "IMG") reqPlain).elapsedMs ≠ 0 :=
  ⟨rfl, rfl, by decide⟩

/-- C3 amended: after a successful navigation the orchestrator
suspends for exactly wait_after_load ms when wait_after_load > 0, and
for a fixed default of 6000 ms when wait_after_load = 0 (rather than
proceeding immediately).  Stated as an exchange identity between the
elapsed times of the two runs. -/
theorem C3_amended_post_load_wait (b : DriverBehavior) (a : ScrapeArgs) (c : String) (w : Nat)
    (hw : 0 < w)
    (hcb : b.createBrowser.result = .ok ())
    (hs : b.start.result = .ok ())
    (hn : b.newTab.result = .ok ())
    (hg : b.goTo.result = .ok ())
    (hp : b.pageSource.result = .ok c) :
    (scrape_with_pydoll b { a with wait_after_load := w }).elapsedMs + 6000 =
      (scrape_with_pydoll b { a with wait_after_load := 0 }).elapsedMs + w := by
  rw [scrape_elapsed_success b { a with wait_after_load := w } c hcb hs hn hg hp,
      scrape_elapsed_success b { a with wait_after_load := 0 } c hcb hs hn hg hp]
  simp only [postLoadSleepMs, if_pos hw, if_neg (lt_irrefl 0)]
  omega

/-- C3 amended witness: concrete instantiation with a 250 ms
post-load wait against the zero-wait run. -/
theorem C3_amended_post_load_wait_witness :
    (0 : Nat) < 250 ∧
    (scrape_with_pydoll (allOk "x" "IMG") { reqPlain with wait_after_load := 250 }).elapsedMs + 6000 =
      (scrape_with_pydoll (allOk "x" "IMG") { reqPlain with wait_after_load := 0 }).elapsedMs + 250 :=
  ⟨by decide,
    C3_amended_post_load_wait (allOk "x" "IMG") reqPlain "x" 250 (by decide)
      rfl rfl rfl rfl rfl⟩

/-! ## Claim C4 -/

/-- C4: when navigation and content extraction succeed but the
screenshot capture raises, the returned result still carries the
non-empty extracted content, pageError is empty and the screenshot
field is absent — screenshot failure is non-fatal and never clears
content or sets pageError. -/
theorem C4_screenshot_failure_nonfatal (b : DriverBehavior) (a : ScrapeArgs)
    (c : String) (e : PyExn)
    (hreq : a.screenshot = true ∨ a.full_page_screenshot = true)
    (hshot : b.takeScreenshot1.result = .exn e)
    (hc : c ≠ "")
    (hcb : b.createBrowser.result = .ok ())
    (hs : b.start.result = .ok ())
    (hn : b.newTab.result = .ok ())
    (hg : b.goTo.result = .ok ())
    (hp : b.pageSource.result = .ok c) :
    (scrape_with_pydoll b a).result =
      .ok { content := c, pageStatusCode := some 200
            pageError := none, screenshot := none } ∧ c ≠ "" :=
  ⟨scrape_success_result b a c hcb hs hn hg hp, hc⟩

/-- C4 witness: concrete run with a failing screenshot capture and a
successful scrape. -/
theorem C4_screenshot_failure_nonfatal_witness :
    reqShot.screenshot = true ∧
    bShotFail.takeScreenshot1.result =
      .exn { isPageLoadTimeout := false, msg := "no display" } ∧
    (scrape_with_pydoll bShotFail reqShot).result =
      .ok { content := "<html>ok</html>", pageStatusCode := some 200
            pageError := none, screenshot := none } ∧ "<html>ok</html>" ≠ "" :=
  ⟨rfl, rfl,
    C4_screenshot_failure_nonfatal bShotFail reqShot "<html>ok</html>"
      { isPageLoadTimeout := false, msg := "no display" }
      (Or.inl rfl) rfl (by decide) rfl rfl rfl rfl rfl⟩

/-! ## Claim C5 -/

/-- C5 counterexample: with a 1000 ms caller deadline, 11000 ms elapse
by the time the SelectorCheck starts (5000 ms navigation plus the
6000 ms default sleep), more than the whole budget; the selector wait
then still consumes its full 10000 ms (total 21000 ms), so it is NOT
capped by the remaining overall budget as the claim states — the 10 s
sub-timeout is passed to find_element unconditionally. -/
theorem C5_counterexample :
    reqSel.timeout = 1000 ∧
    (scrape_with_pydoll bSel reqSelNone).elapsedMs = 11000 ∧
    (scrape_with_pydoll bSel reqSel).elapsedMs = 21000 ∧
    (scrape_with_pydoll bSel reqSel).result =
      .ok { content := "<html>sel</html>", pageStatusCode := some 200
            pageError := none, screenshot := none } :=
  ⟨rfl, rfl, rfl, rfl⟩

/-- C5 amended: with check_selector set, the orchestrator waits for
the selector for at most the fixed 10-second sub-timeout passed to
find_element — regardless of the remaining overall budget — and a
failure of the wait is non-fatal: the run still returns the extracted
content with no pageError. -/
theorem C5_amended_selector_wait (b : DriverBehavior) (a : ScrapeArgs)
    (s c : String) (e : PyExn)
    (hsel : a.check_selector = some s)
    (hfind : b.findElement.result = .exn e)
    (hbound : b.findElement.dur ≤ 10000)
    (hcb : b.createBrowser.result = .ok ())
    (hs : b.start.result = .ok ())
    (hn : b.newTab.result = .ok ())
    (hg : b.goTo.result = .ok ())
    (hp : b.pageSource.result = .ok c) :
    (scrape_with_pydoll b a).result =
      .ok { content := c, pageStatusCode := some 200
            pageError := none, screenshot := none } ∧
    (scrape_with_pydoll b a).elapsedMs ≤
      b.createBrowser.dur + (b.start.dur + b.newTab.dur + b.setWindowBounds.dur
        + b.goTo.dur + postLoadSleepMs a.wait_after_load + 10000
        + b.pageSource.dur
        + (if a.screenshot || a.full_page_screenshot then b.takeScreenshot1.dur else 0))
      + b.stop.dur := by
  refine ⟨scrape_success_result b a c hcb hs hn hg hp, ?_⟩
  rw [scrape_elapsed_success b a c hcb hs hn hg hp]
  simp only [hsel]
  omega

/-- C5 amended witness: concrete instantiation on the bSel behavior,
whose selector wait exhausts the whole 10 s sub-timeout and raises. -/
theorem C5_amended_selector_wait_witness :
    reqSel.check_selector = some "#main" ∧
    bSel.findElement.dur ≤ 10000 ∧
    ((scrape_with_pydoll bSel reqSel).result =
      .ok { content := "<html>sel</html>", pageStatusCode := some 200
            pageError := none, screenshot := none } ∧
    (scrape_with_pydoll bSel reqSel).elapsedMs ≤
      bSel.createBrowser.dur + (bSel.start.dur + bSel.newTab.dur
        + bSel.setWindowBounds.dur + bSel.goTo.dur
        + postLoadSleepMs reqSel.wait_after_load + 10000
        + bSel.pageSource.dur
        + (if reqSel.screenshot || reqSel.full_page_screenshot
           then bSel.takeScreenshot1.dur else 0))
      + bSel.stop.dur) :=
  ⟨rfl, by decide,
    C5_amended_selector_wait bSel reqSel "#main" "<html>sel</html>"
      { isPageLoadTimeout := false, msg := "selector not found" }
      rfl rfl (by decide) rfl rfl rfl rfl rfl⟩

/-! ## Claim C6 -/

/-- C6 counterexample: when every driver call succeeds but the
rendered document is the empty string, the run returns content = ""
with pageError absent — neither (content non-empty AND pageError
empty) nor (content empty AND pageError non-empty) holds, so the
claimed exactly-one dichotomy fails. -/
theorem C6_counterexample :
    (scrape_with_pydoll bEmptySrc reqPlain).result = .ok emptyOkRes ∧
    ¬ claimedNavInvariant emptyOkRes := by
  refine ⟨rfl, ?_⟩
  intro h
  rcases h with ⟨hne, _⟩ | ⟨_, hne⟩
  · exact hne rfl
  · exact hne (Or.inl rfl)

/-- C6 amended: every returned result satisfies the weaker dichotomy:
either pageError is absent (success path — the content is the
extracted document, possibly empty), or content is the empty string
and pageError is present (failure path, where the message may itself
be empty). -/
theorem C6_amended_result_dichotomy (b : DriverBehavior) (a : ScrapeArgs)
    (res : ScrapeResult)
    (hres : (scrape_with_pydoll b a).result = .ok res) :
    res.pageError = none ∨ (res.content = "" ∧ res.pageError ≠ none) := by
  rcases scrape_result_shape b a with ⟨e, he⟩ | ⟨e, he⟩ | ⟨c, hc⟩
  · rw [hres] at he
    exact Outcome.noConfusion he
  · rw [hres] at he
    injection he with h
    subst h
    right
    exact ⟨rfl, by simp [failedResult]⟩
  · rw [hres] at hc
    injection hc with h
    subst h
    left
    rfl

/-- C6 amended witness: concrete successful run, landing in the left
branch of the dichotomy. -/
theorem C6_amended_result_dichotomy_witness :
    (scrape_with_pydoll (allOk "<html>w</html>" "IMG") reqPlain).result =
      .ok { content := "<html>w</html>", pageStatusCode := some 200
            pageError := none, screenshot := none } ∧
    (({ content := "<html>w</html>", pageStatusCode := some 200
        pageError := none, screenshot := none } : ScrapeResult).pageError = none ∨
     (({ content := "<html>w</html>", pageStatusCode := some 200
         pageError := none, screenshot := none } : ScrapeResult).content = "" ∧
      ({ content := "<html>w</html>", pageStatusCode := some 200
         pageError := none, screenshot := none } : ScrapeResult).pageError ≠ none)) :=
  ⟨rfl, C6_amended_result_dichotomy (allOk "<html>w</html>" "IMG") reqPlain _ rfl⟩

/-! ## Claim C7 -/

/-- C8 counterexample: browser construction (create_browser at line
132) happens outside the try block, so a launch failure there
propagates out of scrape_with_pydoll as an exception instead of being
converted into a classified-error result dict. -/
theorem C8_counterexample :
    (scrape_with_pydoll bLaunchFail reqPlain).result = .exn launchExn ∧
    Outcome.isOk (scrape_with_pydoll bLaunchFail reqPlain).result = false :=
  ⟨rfl, rfl⟩

/-- C8 amended: every driver call AFTER a successful browser
construction is wrapped, so whenever create_browser succeeds the
operation returns a result dict (with the four fields content,
pageStatusCode, pageError and screenshot, as carried by the
ScrapeResult structure); only a construction failure escapes as an
exception. -/
theorem C8_amended_wrapped_after_construction (b : DriverBehavior) (a : ScrapeArgs)
    (hcb : b.createBrowser.result = .ok ()) :
    ∃ res : ScrapeResult, (scrape_with_pydoll b a).result = .ok res := by
  rcases h : (tryBody b a).1 with res | e
  · exact ⟨res, by simp [scrape_with_pydoll, hcb, h]⟩
  · exact ⟨failedResult e, by simp [scrape_with_pydoll, hcb, h]⟩

/-- C8 amended witness: concrete successful construction yields a
returned dict. -/
theorem C8_amended_wrapped_after_construction_witness :
    (allOk "x" "IMG").createBrowser.result = .ok () ∧
    ∃ res : ScrapeResult, (scrape_with_pydoll (allOk "x" "IMG") reqPlain).result = .ok res :=
  ⟨rfl, C8_amended_wrapped_after_construction (allOk "x" "IMG") reqPlain rfl⟩

/-! ## Claim C9 -/

/-- C9: for every request in which a browser instance is constructed,
browser.stop() is invoked on it exactly once, on every exit path —
success dict, failure dict from either except handler — because the
finally block of lines 272-277 runs once whichever way the try block
exits, and any exception it raises is swallowed. -/
theorem C9_stop_called_exactly_once (b : DriverBehavior) (a : ScrapeArgs)
    (hcb : b.createBrowser.result = .ok ()) :
    (scrape_with_pydoll b a).stopCalls = 1 := by
  simp [scrape_with_pydoll, hcb]

/-- C9 witness: concrete run with a constructed browser; stop is
called once. -/
theorem C9_stop_called_exactly_once_witness :
    (allOk "x" "IMG").createBrowser.result = .ok () ∧
    (scrape_with_pydoll (allOk "x" "IMG") reqPlain).stopCalls = 1 :=
  ⟨rfl, C9_stop_called_exactly_once (allOk "x" "IMG") reqPlain rfl⟩

/-! ## Claim C10 -/

/-- C10 counterexample: the module has no session pool — every request
constructs its own browser — so the number of simultaneously live
instances grows with the number of in-flight requests and is bounded
by no pool capacity whatsoever. -/
theorem C10_counterexample :
    ¬ ∃ cap : Nat, ∀ n : Nat, ((acquireAll n initPool).live).length ≤ cap := by
  rintro ⟨cap, hcap⟩
  have h := hcap (cap + 1)
  rw [acquireAll_live_length] at h
  simp [initPool] at h

/-- C10 amended: each request constructs its own fresh browser
instance, so no two in-flight requests ever hold the same instance
(the live instance ids are pairwise distinct) — but there is no
capacity bound: with n requests in flight, exactly n instances are
simultaneously alive. -/
theorem C10_amended_fresh_instances (n : Nat) :
    ((acquireAll n initPool).live).Nodup ∧
    ((acquireAll n initPool).live).length = n := by
  constructor
  · exact (poolInv_acquireAll n initPool ⟨List.nodup_nil, by intro x hx; cases hx⟩).1
  · rw [acquireAll_live_length]
    simp [initPool]

/-- C10 amended witness: three in-flight requests hold three pairwise
distinct instances. -/
theorem C10_amended_fresh_instances_witness :
    ((acquireAll 3 initPool).live).Nodup ∧
    ((acquireAll 3 initPool).live).length = 3 :=
  C10_amended_fresh_instances 3

end Pydoll
